import Mathlib

set_option maxRecDepth 100000

/-!
Verification of the Wellness Chat Coach API backend (`src/main.py`).

The core of the program is the pure function `generate_reply`, a
first-match-wins keyword classifier over seven categories, plus a thin
HTTP layer (`POST /api/chat`) that applies it to the request's `message`
field.  We model Python strings as `List Char`; `str.lower` is modelled
on the ASCII letters (exactly `Char.toLower`), and `str.strip` strips the
six ASCII whitespace characters (space, TAB, LF, CR, VT, FF).  Substring
containment (Python's `in` operator) is modelled by the executable
`subMatch` below.
-/

namespace WellnessChat

/-- The whitespace characters removed by Python's `str.strip()`
(ASCII fragment): space, tab, newline, carriage return, vertical tab,
form feed. -/
def pyIsSpace (c : Char) : Bool :=
  c == ' ' || c == '\t' || c == '\n' || c == '\r' ||
    c == Char.ofNat 11 || c == Char.ofNat 12

/-- Python `str.lower()` applied characterwise (ASCII letters). -/
def lower (l : List Char) : List Char := l.map Char.toLower

/-- Python `str.strip()`: remove leading and trailing whitespace. -/
def strip (l : List Char) : List Char :=
  List.rdropWhile pyIsSpace (List.dropWhile pyIsSpace l)

/-- Does the needle occur at the very start of the haystack? -/
def leadMatch : List Char → List Char → Bool
  | [], _ => true
  | _ :: _, [] => false
  | a :: as, b :: bs => a == b && leadMatch as bs

/-- Python's substring test `needle in hay`. -/
def subMatch (n : List Char) : List Char → Bool
  | [] => n.isEmpty
  | b :: bs => leadMatch n (b :: bs) || subMatch n bs

/-- `any(k in q for k in ks)` from the source. -/
def anyKey (q : List Char) (ks : List (List Char)) : Bool :=
  ks.any fun k => subMatch k q

/-- The fixed disclaimer appended to every reply. -/
def disclaimer : List Char :=
  ("Note: This is general wellness information and not a medical diagnosis. Consult a qualified clinician for personalized care or urgent concerns.").data

/-- Keywords of category 1 (oral/tongue health). -/
def tongueKeys : List (List Char) :=
  [("tongue").data, ("coating").data, ("ulcer").data, ("sores").data,
    ("oral").data, ("thrush").data, ("mouth").data]

/-- Keywords of category 2 (fitness guidance). -/
def fitnessKeys : List (List Char) :=
  [("workout").data, ("training").data, ("gym").data, ("strength").data,
    ("cardio").data, ("hypertrophy").data, ("fat loss").data, ("muscle").data]

/-- Keywords of category 3 (diet and nutrition). -/
def nutritionKeys : List (List Char) :=
  [("diet").data, ("nutrition").data, ("protein").data, ("calorie").data,
    ("macro").data, ("meal").data, ("keto").data, ("fasting").data, ("fiber").data]

/-- Keywords of category 4 (medical records and tracking). -/
def recordsKeys : List (List Char) :=
  [("records").data, ("labs").data, ("blood work").data, ("medical history").data,
    ("medication").data, ("symptom").data, ("log").data, ("trend").data]

/-- Keywords of category 5 (general wellness). -/
def wellnessKeys : List (List Char) :=
  [("sleep").data, ("stress").data, ("wellness").data, ("energy").data,
    ("recovery").data, ("habit").data, ("routine").data, ("mindfulness").data,
    ("hydrate").data]

/-- Keywords of category 6 (urgent-safety fallback). -/
def urgentKeys : List (List Char) :=
  [("chest pain").data, ("shortness of breath").data, ("severe").data,
    ("emergency").data, ("fainted").data, ("suicidal").data, ("stroke").data]

/-- Category 1 reply: tongue-health template plus disclaimer. -/
def tongueReply : List Char :=
  ("Tongue health quick read:\n• Typical: pink, moist, thin white coating.\n• Thick white/yellow coating: dehydration, oral hygiene issues, or possible fungal overgrowth.\n• Red/pebbled or very smooth: possible nutrient gaps (B12, iron), irritation, or heat/spice.\n• Ulcers/sores: consider trauma, stress, vitamin B/iron, or viral causes.\nCare steps: hydrate, brush tongue gently, avoid irritants, ensure balanced nutrition, and see a dentist/clinician if persistent (>2 weeks), painful, or with fever.\n\n").data
    ++ disclaimer

/-- Category 2 reply: training-plan template plus disclaimer. -/
def fitnessReply : List Char :=
  ("Smart training plan:\n• Weekly: 2–3 strength sessions + 150–300 min moderate cardio (or 75–150 min vigorous).\n• Lifts: focus on compounds (squat, hinge, push, pull), add accessories; 6–12 reps for hypertrophy, 2–3 RIR.\n• Progression: add small load or reps weekly; deload every 4–8 weeks.\n• Recovery: sleep 7–9h, protein 1.6–2.2 g/kg/day, manage stress.\n\n").data
    ++ disclaimer

/-- Category 3 reply: nutrition-basics template plus disclaimer. -/
def nutritionReply : List Char :=
  ("Nutrition basics:\n• Build plates: 40% veggies, 30% lean protein, 20% smart carbs, 10% healthy fats.\n• Protein: ~1.6–2.2 g/kg/day; distribute across meals.\n• Fiber: 25–38 g/day from plants; hydrate well.\n• Weight goals: modest deficit (250–500 kcal) for fat loss; small surplus for muscle gain.\n• Adherence beats perfection—choose a pattern you can sustain.\n\n").data
    ++ disclaimer

/-- Category 4 reply: record-keeping template plus disclaimer. -/
def recordsReply : List Char :=
  ("Better health record-keeping:\n• Keep a simple log with dates for symptoms, diagnoses, meds/supplements, allergies, and key vitals (BP, HR, weight).\n• Track labs as a table (test, value, range, date); add notes and questions for your visit.\n• Export/share a concise summary (1 page) with your clinician.\n• Secure storage and backups are important; protect sensitive info.\n\n").data
    ++ disclaimer

/-- Category 5 reply: core wellness habits template plus disclaimer. -/
def wellnessReply : List Char :=
  ("Core wellness habits:\n• Sleep: 7–9 hours, consistent schedule, dark/cool room.\n• Stress: brief daily decompression (walks, breathing, journaling).\n• Movement: stand and stroll breaks every hour; sunlight in the morning.\n• Hydration: ~30–35 ml/kg/day; more in heat/exercise.\n\n").data
    ++ disclaimer

/-- The safety warning sentence of the urgent fallback. -/
def urgentWarning : List Char :=
  ("Your symptoms could be urgent. Please seek immediate in-person medical care or call local emergency services.").data

/-- Category 6 reply: safety fallback warning plus disclaimer. -/
def urgentReply : List Char :=
  ("Your symptoms could be urgent. Please seek immediate in-person medical care or call local emergency services.\n\n").data
    ++ disclaimer

/-- Category 7 reply: the default helper response plus disclaimer. -/
def defaultReply : List Char :=
  ("I can help with training plans, macro-friendly meals, tongue health cues, organizing medical records, and daily wellness habits. Tell me more about your goal or question (e.g., \x273-day full-body plan\x27 or \x27interpret white tongue coating\x27).\n\n").data
    ++ disclaimer

/-- The normalisation step `q = text.lower().strip()` of `generate_reply`. -/
def normalize (text : List Char) : List Char := strip (lower text)

/-- The rule-based wellness assistant `generate_reply` from `src/main.py`:
lowercase and strip the input, then try the six keyword categories in
order and fall through to the default helper response. -/
def generate_reply (text : List Char) : List Char :=
  let q := normalize text
  if anyKey q tongueKeys then tongueReply
  else if anyKey q fitnessKeys then fitnessReply
  else if anyKey q nutritionKeys then nutritionReply
  else if anyKey q recordsKeys then recordsReply
  else if anyKey q wellnessKeys then wellnessReply
  else if anyKey q urgentKeys then urgentReply
  else defaultReply

/-- The index-to-keyword-set view of the six keyword categories, in source
order (0 = tongue, 1 = fitness, 2 = nutrition, 3 = records, 4 = wellness,
5 = urgent). -/
def catKeys : Nat → List (List Char)
  | 0 => tongueKeys
  | 1 => fitnessKeys
  | 2 => nutritionKeys
  | 3 => recordsKeys
  | 4 => wellnessKeys
  | 5 => urgentKeys
  | _ => []

/-- The index-to-reply view of the seven branches, in source order
(index 6 and beyond: the default branch). -/
def catReply : Nat → List Char
  | 0 => tongueReply
  | 1 => fitnessReply
  | 2 => nutritionReply
  | 3 => recordsReply
  | 4 => wellnessReply
  | 5 => urgentReply
  | _ => defaultReply

/-- The seven possible replies, in source order. -/
def allReplies : List (List Char) :=
  [tongueReply, fitnessReply, nutritionReply, recordsReply,
    wellnessReply, urgentReply, defaultReply]

/-- The role of a chat message (`Literal["user", "assistant"]`). -/
inductive Role where
  | user : Role
  | assistant : Role
deriving DecidableEq

/-- A prior conversation turn (pydantic model `Message`). -/
structure Message where
  role : Role
  content : List Char
deriving DecidableEq

/-- The body of `POST /api/chat` (pydantic model `ChatRequest`):
a message plus an optional history (absent history is the empty list,
matching the `default_factory=list` default). -/
structure ChatRequest where
  message : List Char
  history : List Message
deriving DecidableEq

/-- The response body of `POST /api/chat` (pydantic model `ChatResponse`). -/
structure ChatResponse where
  reply : List Char
deriving DecidableEq

/-- The `chat` endpoint handler: `reply = generate_reply(req.message)`. -/
def chat (req : ChatRequest) : ChatResponse :=
  ChatResponse.mk (generate_reply req.message)

/-! Correspondence of the executable matchers with Mathlib's sublist
predicates. -/

theorem leadMatch_iff : ∀ (n h : List Char), leadMatch n h = true ↔ n <+: h
  | [], h => by simp [leadMatch]
  | a :: as, [] => by simp [leadMatch]
  | a :: as, b :: bs => by
    simp only [leadMatch, Bool.and_eq_true, beq_iff_eq, List.cons_prefix_cons]
    exact and_congr Iff.rfl (leadMatch_iff as bs)

theorem subMatch_iff (n : List Char) : ∀ (h : List Char), subMatch n h = true ↔ n <:+: h
  | [] => by simp [subMatch]
  | b :: bs => by
    simp only [subMatch, Bool.or_eq_true, leadMatch_iff, subMatch_iff n bs]
    exact Iff.symm List.infix_cons_iff

/-! Occurrences of whitespace-free substrings survive the strip step. -/

theorem infix_dropWhile_of_head {p : Char → Bool} {c : Char} {m l : List Char}
    (hc : p c = false) : (c :: m) <:+: l → (c :: m) <:+: List.dropWhile p l := by
  induction l with
  | nil => intro h; simp at h
  | cons a t ih =>
    intro h
    by_cases ha : p a = true
    · rw [List.dropWhile_cons_of_pos ha]
      rcases Iff.mp List.infix_cons_iff h with hpre | hinf
      · have hca : c = a := (Iff.mp List.cons_prefix_cons hpre).1
        rw [← hca, hc] at ha
        simp at ha
      · exact ih hinf
    · rw [List.dropWhile_cons_of_neg ha]
      exact h

theorem infix_strip {n l : List Char} {c d : Char}
    (hh : n.head? = some c) (hcw : pyIsSpace c = false)
    (hl : n.getLast? = some d) (hdw : pyIsSpace d = false)
    (h : n <:+: l) : n <:+: strip l := by
  cases n with
  | nil => simp at hh
  | cons a m =>
    have hac : a = c := by
      rw [List.head?_cons] at hh
      exact Option.some.inj hh
    have hc : pyIsSpace a = false := by rw [hac]; exact hcw
    have h1 : (a :: m) <:+: List.dropWhile pyIsSpace l := infix_dropWhile_of_head hc h
    have h2 : (a :: m).reverse <:+: (List.dropWhile pyIsSpace l).reverse :=
      Iff.mpr List.reverse_infix h1
    cases hrev : (a :: m).reverse with
    | nil => simp at hrev
    | cons e r =>
      have hed : e = d := by
        rw [← List.head?_reverse, hrev, List.head?_cons] at hl
        exact Option.some.inj hl
      have hd : pyIsSpace e = false := by rw [hed]; exact hdw
      rw [hrev] at h2
      have h3 : (e :: r) <:+: List.dropWhile pyIsSpace (List.dropWhile pyIsSpace l).reverse :=
        infix_dropWhile_of_head hd h2
      have h4 := Iff.mpr List.reverse_infix h3
      rw [← hrev, List.reverse_reverse] at h4
      unfold strip List.rdropWhile
      exact h4

/-! Character-level facts about `Char.toLower` and `pyIsSpace`. -/

theorem char_toNat_ofNat {n : Nat} (h : n < 55296) : (Char.ofNat n).toNat = n := by
  have hv : n.isValidChar := Or.inl h
  rw [Char.ofNat, dif_pos hv]
  simp [Char.ofNatAux, Char.toNat, UInt32.toNat]

theorem toLower_toNat (c : Char) :
    (Char.toLower c).toNat =
      if 65 ≤ c.toNat ∧ c.toNat ≤ 90 then c.toNat + 32 else c.toNat := by
  unfold Char.toLower
  by_cases h : 65 ≤ c.toNat ∧ c.toNat ≤ 90
  · rw [if_pos h, if_pos h]
    exact char_toNat_ofNat (by omega)
  · rw [if_neg h, if_neg h]

theorem toLower_toLower (c : Char) : (Char.toLower c).toLower = Char.toLower c := by
  unfold Char.toLower
  by_cases h : 65 ≤ c.toNat ∧ c.toNat ≤ 90
  · rw [if_pos h]
    have ht : (Char.ofNat (c.toNat + 32)).toNat = c.toNat + 32 :=
      char_toNat_ofNat (by omega)
    rw [if_neg]
    rw [ht]
    omega
  · rw [if_neg h, if_neg h]

theorem pyIsSpace_eq_false_of_toNat {c : Char} (h : 33 ≤ c.toNat) :
    pyIsSpace c = false := by
  have hv : ∀ d : Char, c = d → 33 ≤ d.toNat := fun d hd => hd ▸ h
  unfold pyIsSpace
  rw [beq_eq_false_iff_ne.mpr (fun hEq => absurd (hv _ hEq) (by decide)),
    beq_eq_false_iff_ne.mpr (fun hEq => absurd (hv _ hEq) (by decide)),
    beq_eq_false_iff_ne.mpr (fun hEq => absurd (hv _ hEq) (by decide)),
    beq_eq_false_iff_ne.mpr (fun hEq => absurd (hv _ hEq) (by decide)),
    beq_eq_false_iff_ne.mpr (fun hEq => absurd (hv _ hEq) (by decide)),
    beq_eq_false_iff_ne.mpr (fun hEq => absurd (hv _ hEq) (by decide))]
  rfl

theorem pyIsSpace_toLower (c : Char) : pyIsSpace (Char.toLower c) = pyIsSpace c := by
  by_cases h : 65 ≤ c.toNat ∧ c.toNat ≤ 90
  · have h1 : (Char.toLower c).toNat = c.toNat + 32 := by
      rw [toLower_toNat, if_pos h]
    rw [pyIsSpace_eq_false_of_toNat (by omega),
      pyIsSpace_eq_false_of_toNat (by omega)]
  · have h1 : Char.toLower c = c := by unfold Char.toLower; rw [if_neg h]
    rw [h1]

theorem toLower_of_space {c : Char} (h : pyIsSpace c = true) : Char.toLower c = c := by
  unfold pyIsSpace at h
  simp only [Bool.or_eq_true, beq_iff_eq] at h
  rcases h with ((((h | h) | h) | h) | h) | h <;> rw [h] <;> decide

/-! Facts about `strip`, `lower` and `normalize`. -/

theorem dropWhile_append_left {p : Char → Bool} {l : List Char} (w : List Char)
    (h : List.dropWhile p l ≠ []) :
    List.dropWhile p (l ++ w) = List.dropWhile p l ++ w := by
  rw [List.dropWhile_append, if_neg]
  simpa using h

theorem rdropWhile_append_all {p : Char → Bool} {w : List Char}
    (hw : ∀ c ∈ w, p c = true) (x : List Char) :
    List.rdropWhile p (x ++ w) = List.rdropWhile p x := by
  unfold List.rdropWhile
  rw [List.reverse_append,
    List.dropWhile_append_of_pos (fun a ha => hw a (Iff.mp (List.mem_reverse) ha))]

theorem strip_ws_left {w l : List Char} (hw : ∀ c ∈ w, pyIsSpace c = true) :
    strip (w ++ l) = strip l := by
  unfold strip
  rw [List.dropWhile_append_of_pos hw]

theorem strip_ws_right {l w : List Char} (hw : ∀ c ∈ w, pyIsSpace c = true) :
    strip (l ++ w) = strip l := by
  unfold strip
  by_cases h : List.dropWhile pyIsSpace l = []
  · have hl : ∀ c ∈ l, pyIsSpace c = true := Iff.mp List.dropWhile_eq_nil_iff h
    have h2 : List.dropWhile pyIsSpace (l ++ w) = [] := by
      apply Iff.mpr List.dropWhile_eq_nil_iff
      intro x hx
      rcases Iff.mp (List.mem_append) hx with h' | h'
      · exact hl x h'
      · exact hw x h'
    rw [h2, h]
  · rw [dropWhile_append_left w h, rdropWhile_append_all hw]

theorem strip_pad {s w1 w2 : List Char} (h1 : ∀ c ∈ w1, pyIsSpace c = true)
    (h2 : ∀ c ∈ w2, pyIsSpace c = true) :
    strip (w1 ++ s ++ w2) = strip s := by
  rw [List.append_assoc, strip_ws_left h1, strip_ws_right h2]

theorem strip_idem (l : List Char) : strip (strip l) = strip l := by
  have hAfix : List.dropWhile pyIsSpace (List.dropWhile pyIsSpace l) =
      List.dropWhile pyIsSpace l := List.dropWhile_idempotent _ _
  have hBA : List.rdropWhile pyIsSpace (List.dropWhile pyIsSpace l) <+:
      List.dropWhile pyIsSpace l := List.rdropWhile_prefix _ _
  have hDB : List.dropWhile pyIsSpace (strip l) = strip l := by
    rcases hBA with ⟨t, ht⟩
    unfold strip
    cases hB0 : List.rdropWhile pyIsSpace (List.dropWhile pyIsSpace l) with
    | nil => simp
    | cons b bs =>
      have hA2 : List.dropWhile pyIsSpace l = b :: (bs ++ t) := by
        rw [← ht, hB0, List.cons_append]
      have hpb : pyIsSpace b = false := by
        by_cases hpb' : pyIsSpace b = true
        · rw [hA2, List.dropWhile_cons_of_pos hpb'] at hAfix
          have hlen := congrArg List.length hAfix
          have hle : (List.dropWhile pyIsSpace (bs ++ t)).length ≤ (bs ++ t).length :=
            (List.dropWhile_sublist _).length_le
          simp only [List.length_cons] at hlen
          omega
        · exact Bool.eq_false_iff.mpr hpb'
      rw [List.dropWhile_cons_of_neg (by rw [hpb]; exact Bool.false_ne_true)]
  calc strip (strip l)
      = List.rdropWhile pyIsSpace (List.dropWhile pyIsSpace (strip l)) := rfl
    _ = List.rdropWhile pyIsSpace (strip l) := by rw [hDB]
    _ = List.rdropWhile pyIsSpace
          (List.rdropWhile pyIsSpace (List.dropWhile pyIsSpace l)) := rfl
    _ = List.rdropWhile pyIsSpace (List.dropWhile pyIsSpace l) :=
        List.rdropWhile_idempotent _ _
    _ = strip l := rfl

theorem lower_lower (l : List Char) : lower (lower l) = lower l := by
  unfold lower
  rw [List.map_map]
  exact List.map_congr_left fun c _ => toLower_toLower c

theorem lower_strip_comm (l : List Char) : lower (strip l) = strip (lower l) := by
  have hp : (pyIsSpace ∘ Char.toLower) = pyIsSpace := funext pyIsSpace_toLower
  unfold strip lower List.rdropWhile
  rw [List.dropWhile_map, hp, ← List.map_reverse, List.dropWhile_map, hp,
    ← List.map_reverse]

theorem normalize_pad {s w1 w2 : List Char} (h1 : ∀ c ∈ w1, pyIsSpace c = true)
    (h2 : ∀ c ∈ w2, pyIsSpace c = true) :
    normalize (w1 ++ s ++ w2) = normalize s := by
  unfold normalize lower
  rw [List.map_append, List.map_append,
    List.map_congr_left (fun c hc => toLower_of_space (h1 c hc)),
    List.map_congr_left (fun c hc => toLower_of_space (h2 c hc)),
    List.map_id', List.map_id']
  exact strip_pad h1 h2

theorem normalize_lower_strip (s : List Char) :
    normalize (lower (strip s)) = normalize s := by
  unfold normalize
  rw [lower_lower, lower_strip_comm, strip_idem]

theorem generate_reply_congr {s t : List Char} (h : normalize s = normalize t) :
    generate_reply s = generate_reply t := by
  simp only [generate_reply, h]

/-! Case analysis on the seven branches of `generate_reply`. -/

theorem generate_reply_eq_cases (text : List Char) :
    generate_reply text = tongueReply ∨ generate_reply text = fitnessReply ∨
    generate_reply text = nutritionReply ∨ generate_reply text = recordsReply ∨
    generate_reply text = wellnessReply ∨ generate_reply text = urgentReply ∨
    generate_reply text = defaultReply := by
  by_cases h1 : anyKey (normalize text) tongueKeys = true
  · exact Or.inl (by simp [generate_reply, h1])
  by_cases h2 : anyKey (normalize text) fitnessKeys = true
  · exact Or.inr (Or.inl (by simp [generate_reply, h1, h2]))
  by_cases h3 : anyKey (normalize text) nutritionKeys = true
  · exact Or.inr (Or.inr (Or.inl (by simp [generate_reply, h1, h2, h3])))
  by_cases h4 : anyKey (normalize text) recordsKeys = true
  · exact Or.inr (Or.inr (Or.inr (Or.inl (by simp [generate_reply, h1, h2, h3, h4]))))
  by_cases h5 : anyKey (normalize text) wellnessKeys = true
  · exact Or.inr (Or.inr (Or.inr (Or.inr (Or.inl
      (by simp [generate_reply, h1, h2, h3, h4, h5])))))
  by_cases h6 : anyKey (normalize text) urgentKeys = true
  · exact Or.inr (Or.inr (Or.inr (Or.inr (Or.inr (Or.inl
      (by simp [generate_reply, h1, h2, h3, h4, h5, h6]))))))
  exact Or.inr (Or.inr (Or.inr (Or.inr (Or.inr (Or.inr
    (by simp [generate_reply, h1, h2, h3, h4, h5, h6]))))))

theorem reply_of_wellness {text : List Char}
    (hw : anyKey (normalize text) wellnessKeys = true) :
    generate_reply text = tongueReply ∨ generate_reply text = fitnessReply ∨
    generate_reply text = nutritionReply ∨ generate_reply text = recordsReply ∨
    generate_reply text = wellnessReply := by
  by_cases h1 : anyKey (normalize text) tongueKeys = true
  · exact Or.inl (by simp [generate_reply, h1])
  by_cases h2 : anyKey (normalize text) fitnessKeys = true
  · exact Or.inr (Or.inl (by simp [generate_reply, h1, h2]))
  by_cases h3 : anyKey (normalize text) nutritionKeys = true
  · exact Or.inr (Or.inr (Or.inl (by simp [generate_reply, h1, h2, h3])))
  by_cases h4 : anyKey (normalize text) recordsKeys = true
  · exact Or.inr (Or.inr (Or.inr (Or.inl (by simp [generate_reply, h1, h2, h3, h4]))))
  exact Or.inr (Or.inr (Or.inr (Or.inr
    (by simp [generate_reply, h1, h2, h3, h4, hw]))))

/-! The claims. -/

/-- C1: `generate_reply` evaluates the seven categories in the fixed source
order (tongue, fitness, nutrition, records, wellness, urgent, default) and
returns the reply of the first category whose keyword set matches the
normalized input; the seven replies are pairwise distinct, so no later
category's reply is ever returned once an earlier category matches, and in
particular "tongue workout" yields the tongue-health reply, not the fitness
reply. -/
theorem c1_first_match_wins :
    (∀ (text : List Char) (i : Nat), i < 6 →
        anyKey (normalize text) (catKeys i) = true →
        (∀ j : Nat, j < i → anyKey (normalize text) (catKeys j) = false) →
        generate_reply text = catReply i) ∧
    generate_reply (("tongue workout").data) = tongueReply ∧
    (∀ i : Nat, i < 7 → ∀ j : Nat, j < 7 → i ≠ j → catReply i ≠ catReply j) := by
  refine ⟨?_, by decide, by decide⟩
  intro text i hi hm hprev
  interval_cases i
  · have g0 : anyKey (normalize text) tongueKeys = true := hm
    simp [generate_reply, catReply, g0]
  · have g0 : anyKey (normalize text) tongueKeys = false := hprev 0 (by omega)
    have g1 : anyKey (normalize text) fitnessKeys = true := hm
    simp [generate_reply, catReply, g0, g1]
  · have g0 : anyKey (normalize text) tongueKeys = false := hprev 0 (by omega)
    have g1 : anyKey (normalize text) fitnessKeys = false := hprev 1 (by omega)
    have g2 : anyKey (normalize text) nutritionKeys = true := hm
    simp [generate_reply, catReply, g0, g1, g2]
  · have g0 : anyKey (normalize text) tongueKeys = false := hprev 0 (by omega)
    have g1 : anyKey (normalize text) fitnessKeys = false := hprev 1 (by omega)
    have g2 : anyKey (normalize text) nutritionKeys = false := hprev 2 (by omega)
    have g3 : anyKey (normalize text) recordsKeys = true := hm
    simp [generate_reply, catReply, g0, g1, g2, g3]
  · have g0 : anyKey (normalize text) tongueKeys = false := hprev 0 (by omega)
    have g1 : anyKey (normalize text) fitnessKeys = false := hprev 1 (by omega)
    have g2 : anyKey (normalize text) nutritionKeys = false := hprev 2 (by omega)
    have g3 : anyKey (normalize text) recordsKeys = false := hprev 3 (by omega)
    have g4 : anyKey (normalize text) wellnessKeys = true := hm
    simp [generate_reply, catReply, g0, g1, g2, g3, g4]
  · have g0 : anyKey (normalize text) tongueKeys = false := hprev 0 (by omega)
    have g1 : anyKey (normalize text) fitnessKeys = false := hprev 1 (by omega)
    have g2 : anyKey (normalize text) nutritionKeys = false := hprev 2 (by omega)
    have g3 : anyKey (normalize text) recordsKeys = false := hprev 3 (by omega)
    have g4 : anyKey (normalize text) wellnessKeys = false := hprev 4 (by omega)
    have g5 : anyKey (normalize text) urgentKeys = true := hm
    simp [generate_reply, catReply, g0, g1, g2, g3, g4, g5]

/-- Witness for C1: "tongue workout" matches category 0 (vacuously no
earlier category), and the reply is the tongue reply. -/
theorem c1_first_match_wins_witness :
    generate_reply (("tongue workout").data) = catReply 0 :=
  c1_first_match_wins.1 (("tongue workout").data) 0 (by omega) (by decide)
    (fun j hj => absurd hj (Nat.not_lt_zero j))

/-- C2 counterexample: "tongue severe stress" contains both the category-5
wellness keyword "stress" and the category-6 urgent keyword "severe", yet
`generate_reply` does not return the general-wellness reply of category 5
(it returns the tongue reply of category 1). -/
theorem c2_counterexample :
    anyKey (normalize (("tongue severe stress").data)) wellnessKeys = true ∧
    anyKey (normalize (("tongue severe stress").data)) urgentKeys = true ∧
    generate_reply (("tongue severe stress").data) ≠ wellnessReply := by decide

/-- C2 (amended): the input "severe stress" yields the general-wellness
reply of category 5, not the urgent-safety reply; and in general a message
whose normalized form contains a category-5 wellness keyword is classified
into one of the categories 1–5 checked before the urgent-safety fallback,
so it is never answered with the urgent-safety reply. -/
theorem c2_wellness_before_urgent :
    generate_reply (("severe stress").data) = wellnessReply ∧
    ∀ text : List Char, anyKey (normalize text) wellnessKeys = true →
      generate_reply text ≠ urgentReply := by
  refine ⟨by decide, ?_⟩
  intro text hw
  rcases reply_of_wellness hw with h | h | h | h | h <;> rw [h] <;> decide

/-- Witness for C2 (amended) at the input "severe stress". -/
theorem c2_wellness_before_urgent_witness :
    generate_reply (("severe stress").data) ≠ urgentReply :=
  c2_wellness_before_urgent.2 (("severe stress").data) (by decide)

/-- C3: every reply of `generate_reply` ends with two newline characters
followed by the exact disclaimer string, and the urgent-safety reply is
precisely the safety warning sentence followed by that suffix. -/
theorem c3_disclaimer_suffix :
    (∀ text : List Char, ('\n' :: '\n' :: disclaimer) <:+ generate_reply text) ∧
    urgentReply = urgentWarning ++ '\n' :: '\n' :: disclaimer := by
  refine ⟨?_, by decide⟩
  intro text
  rcases generate_reply_eq_cases text with h | h | h | h | h | h | h <;>
    rw [h] <;> decide

/-- C4: an input whose normalized form matches none of the six keyword
categories — e.g. the empty string — produces the default helper reply
(there is no error path: `generate_reply` is a total function). -/
theorem c4_default_reply (text : List Char)
    (h1 : anyKey (normalize text) tongueKeys = false)
    (h2 : anyKey (normalize text) fitnessKeys = false)
    (h3 : anyKey (normalize text) nutritionKeys = false)
    (h4 : anyKey (normalize text) recordsKeys = false)
    (h5 : anyKey (normalize text) wellnessKeys = false)
    (h6 : anyKey (normalize text) urgentKeys = false) :
    generate_reply text = defaultReply := by
  simp [generate_reply, h1, h2, h3, h4, h5, h6]

/-- Witness for C4 at the empty string. -/
theorem c4_default_reply_witness :
    generate_reply ([] : List Char) = defaultReply :=
  c4_default_reply [] (by decide) (by decide) (by decide) (by decide)
    (by decide) (by decide)

/-- C5: keyword matching is case-insensitive — two inputs that agree after
lowercasing (i.e. differ only in letter case) receive identical replies. -/
theorem c5_case_insensitive (s t : List Char) (h : lower s = lower t) :
    generate_reply s = generate_reply t :=
  generate_reply_congr (by unfold normalize; rw [h])

/-- Witness for C5: "WORKOUT" and "workout" yield identical replies. -/
theorem c5_case_insensitive_witness :
    generate_reply (("WORKOUT").data) = generate_reply (("workout").data) :=
  c5_case_insensitive (("WORKOUT").data) (("workout").data) (by decide)

/-- C6: every input containing "tongue" in any letter case (its lowercased
form contains the substring "tongue") gets a reply that starts with
"Tongue health quick read". -/
theorem c6_tongue_reply (text : List Char)
    (h : subMatch (("tongue").data) (lower text) = true) :
    (("Tongue health quick read").data) <+: generate_reply text := by
  have hinf : (("tongue").data) <:+: lower text := Iff.mp (subMatch_iff _ _) h
  have hstrip : (("tongue").data) <:+: normalize text :=
    infix_strip (rfl : (("tongue").data).head? = some 't') (by decide)
      (rfl : (("tongue").data).getLast? = some 'e') (by decide) hinf
  have hsm : subMatch (("tongue").data) (normalize text) = true :=
    Iff.mpr (subMatch_iff _ _) hstrip
  have hA : anyKey (normalize text) tongueKeys = true := by
    unfold anyKey tongueKeys
    simp [List.any_cons, hsm]
  have hrep : generate_reply text = tongueReply := by simp [generate_reply, hA]
  rw [hrep]
  decide

/-- Witness for C6 at the input "My TONGUE hurts". -/
theorem c6_tongue_reply_witness :
    (("Tongue health quick read").data) <+:
      generate_reply (("My TONGUE hurts").data) :=
  c6_tongue_reply (("My TONGUE hurts").data) (by decide)

/-- C7: normalization strips only leading and trailing whitespace — padding
an input with leading/trailing whitespace (equivalently, removing such
padding) does not change the reply, and applying `generate_reply` to the
already-normalized input `lower (strip s)` gives the same reply as `s`
itself. -/
theorem c7_normalization (s w1 w2 : List Char)
    (h1 : ∀ c ∈ w1, pyIsSpace c = true) (h2 : ∀ c ∈ w2, pyIsSpace c = true) :
    generate_reply (w1 ++ s ++ w2) = generate_reply s ∧
    generate_reply s = generate_reply (lower (strip s)) :=
  ⟨generate_reply_congr (normalize_pad h1 h2),
    (generate_reply_congr (normalize_lower_strip s)).symm⟩

/-- Witness for C7: padding "workout" with a leading space and a trailing
newline leaves the reply unchanged. -/
theorem c7_normalization_witness :
    generate_reply (((" ").data ++ ("workout").data ++ ("\n").data)) =
        generate_reply (("workout").data) ∧
    generate_reply (("workout").data) =
        generate_reply (lower (strip (("workout").data))) :=
  c7_normalization (("workout").data) ((" ").data) (("\n").data)
    (by decide) (by decide)

/-- C8: the reply depends only on the `message` field of the request — the
`history` field is never read — and the handler is the pure function
`generate_reply` of the message. -/
theorem c8_history_ignored (r1 r2 : ChatRequest) (h : r1.message = r2.message) :
    chat r1 = chat r2 ∧ (chat r1).reply = generate_reply r1.message := by
  constructor
  · unfold chat
    rw [h]
  · rfl

/-- Witness for C8: the same message with an empty and with a non-empty
history produces the same response. -/
theorem c8_history_ignored_witness :
    chat (ChatRequest.mk (("sleep").data) []) =
      chat (ChatRequest.mk (("sleep").data)
        [Message.mk Role.user (("hi").data),
          Message.mk Role.assistant (("hello").data)]) :=
  (c8_history_ignored (ChatRequest.mk (("sleep").data) [])
    (ChatRequest.mk (("sleep").data)
      [Message.mk Role.user (("hi").data),
        Message.mk Role.assistant (("hello").data)]) rfl).1

/-- C9: a whitespace-only input is normalized to the empty string, so it
gets the same reply as the empty string, namely the default helper reply. -/
theorem c9_whitespace_only (text : List Char)
    (h : ∀ c ∈ text, pyIsSpace c = true) :
    generate_reply text = generate_reply [] ∧
    generate_reply text = defaultReply := by
  have hn : normalize text = normalize [] := by
    unfold normalize lower
    rw [List.map_congr_left (fun c hc => toLower_of_space (h c hc)), List.map_id']
    have hdrop : List.dropWhile pyIsSpace text = [] :=
      Iff.mpr List.dropWhile_eq_nil_iff (fun x hx => h x hx)
    unfold strip
    rw [hdrop]
    rfl
  exact ⟨generate_reply_congr hn, (generate_reply_congr hn).trans (by decide)⟩

/-- Witness for C9 at the input " TAB NL SPACE " (a space, a tab, a newline
and a space). -/
theorem c9_whitespace_only_witness :
    generate_reply ((" \t\n ").data) = defaultReply :=
  (c9_whitespace_only ((" \t\n ").data) (by decide)).2

/-- C10: every reply of `generate_reply` is one of the seven constant branch
texts, and each of the seven is attained at some input ("tongue",
"workout", "diet", "labs", "sleep", "severe" and the empty string
respectively). -/
theorem c10_range_seven :
    (∀ text : List Char, generate_reply text ∈ allReplies) ∧
    generate_reply (("tongue").data) = tongueReply ∧
    generate_reply (("workout").data) = fitnessReply ∧
    generate_reply (("diet").data) = nutritionReply ∧
    generate_reply (("labs").data) = recordsReply ∧
    generate_reply (("sleep").data) = wellnessReply ∧
    generate_reply (("severe").data) = urgentReply ∧
    generate_reply ([] : List Char) = defaultReply := by
  refine ⟨?_, by decide, by decide, by decide, by decide, by decide,
    by decide, by decide⟩
  intro text
  rcases generate_reply_eq_cases text with h | h | h | h | h | h | h <;>
    rw [h] <;> simp [allReplies]

end WellnessChat
